import Mathlib

/-!
Verification of the particle-being engine
(`src/core-files/human-figure/particle-being-library.js`).

The JavaScript source is shallowly embedded below.  JS numbers are modelled
as exact rationals (`ℚ`) where the code only uses field operations and
comparisons, and as reals (`ℝ`) where the code calls `Math.sqrt` / `Math.sin`
/ `Math.cos` (vector lengths, normalisation, turbulence, oscillation).
Calls to `Math.random()` are modelled as explicit input parameters or input
streams: every random draw the code makes becomes one argument of the
embedded function, in the order the code makes them.
-/

set_option maxHeartbeats 1000000

namespace ParticleBeing

/-- Lifecycle states of a Being, i.e. the members of
`options.states = ['forming', 'stable', 'dissolving', 'scattered']`. -/
inductive BState where
  | forming
  | stable
  | dissolving
  | scattered
deriving DecidableEq, BEq

/-- The cyclic state list `options.states` (constructor default, line 18). -/
def statesList : List BState :=
  [BState.forming, BState.stable, BState.dissolving, BState.scattered]

section FieldModel

variable {α : Type} [LinearOrderedField α]

/-- Default `options.stateTimings` (lines 19-24), in seconds. -/
def stateTimings : BState → α
  | BState.forming => 4
  | BState.stable => 3
  | BState.dissolving => 3
  | BState.scattered => 2

/-- Default `options.attractionForces` (lines 25-30). -/
def attractionForces : BState → α
  | BState.forming => 4 / 100
  | BState.stable => 24 / 1000
  | BState.dissolving => 8 / 1000
  | BState.scattered => 4 / 1000

/-- Successor state as computed on line 282:
`states[(states.indexOf(state) + 1) % states.length]`. -/
def nextState (s : BState) : BState :=
  statesList.getD ((statesList.indexOf s + 1) % statesList.length) BState.forming

/-- The state-machine part of one `updateBeing` frame (lines 275-284):
`stateTimer += deltaTime`, then, when
`stateTimer > stateTimings[state] + Math.random() * 2`, the state advances to
its successor and the timer resets to `0`.  `rand` is the value produced by
`Math.random()` on this frame's transition check. -/
def stepBeingState (s : BState) (timer dt rand : α) : BState × α :=
  if timer + dt > stateTimings s + rand * 2 then (nextState s, 0) else (s, timer + dt)

/-- Iterated `stepBeingState` over a schedule of `(deltaTime, rand)` frames. -/
def runSM : BState → α → List (α × α) → BState × α
  | s, t, [] => (s, t)
  | s, t, (dt, r) :: rest =>
      runSM (stepBeingState s t dt r).1 (stepBeingState s t dt r).2 rest

/-- Number of state transitions `updateBeing` performs along a schedule. -/
def transCount : BState → α → List (α × α) → ℕ
  | _, _, [] => 0
  | s, t, (dt, r) :: rest =>
      (if t + dt > stateTimings s + r * 2 then 1 else 0) +
        transCount (stepBeingState s t dt r).1 (stepBeingState s t dt r).2 rest

/-- Opacity target of the per-state `switch` in `updateParticle`
(lines 300-337), which depends only on the state, the being's `stateTimer`
and the particle's `originalOpacity`:
forming/stable use `originalOpacity`, dissolving uses
`originalOpacity * (1 - stateTimer / stateTimings.dissolving)` (default
dissolving timing `3`, with *no clamping* of the quotient), scattered uses
`originalOpacity * 0.3`. -/
def opacityTarget (orig : α) (s : BState) (timer : α) : α :=
  match s with
  | BState.forming => orig
  | BState.stable => orig
  | BState.dissolving => orig * (1 - timer / 3)
  | BState.scattered => orig * (3 / 10)

/-- Opacity relaxation on line 363:
`opacity += (targetOpacity - opacity) * 0.05`. -/
def opacityStep (op target : α) : α := op + (target - op) * (5 / 100)

end FieldModel

/-- Position of a state in `statesList` (used only to phrase the cycle
theorem; `statesList.indexOf` evaluates to exactly these values). -/
def stIdx : BState → ℕ
  | BState.forming => 0
  | BState.stable => 1
  | BState.dissolving => 2
  | BState.scattered => 3

/-- The state reached after `n` forward transitions starting from `forming`:
`statesList[n % 4]`. -/
def stateOfIndex (n : ℕ) : BState := statesList.getD (n % 4) BState.forming

theorem nextState_forming : nextState BState.forming = BState.stable := rfl

theorem nextState_stable : nextState BState.stable = BState.dissolving := rfl

theorem nextState_dissolving : nextState BState.dissolving = BState.scattered := rfl

theorem nextState_scattered : nextState BState.scattered = BState.forming := rfl

theorem stateOfIndex_stIdx (s : BState) : stateOfIndex (stIdx s) = s := by
  cases s <;> rfl

theorem stateOfIndex_mod (m n : ℕ) (h : m % 4 = n % 4) :
    stateOfIndex m = stateOfIndex n := by
  unfold stateOfIndex
  rw [h]

theorem stateOfIndex_next (s : BState) (k : ℕ) :
    stateOfIndex (stIdx (nextState s) + k) = stateOfIndex (stIdx s + (1 + k)) := by
  apply stateOfIndex_mod
  cases s
  · rw [nextState_forming]
    simp only [stIdx]
    omega
  · rw [nextState_stable]
    simp only [stIdx]
    omega
  · rw [nextState_dissolving]
    simp only [stIdx]
    omega
  · rw [nextState_scattered]
    simp only [stIdx]
    omega

/-- Along any schedule of frames, the state reached by the `updateBeing`
state machine is the start state advanced by the number of transitions,
forward around the 4-cycle. -/
theorem runSM_cycle {α : Type} [LinearOrderedField α] (sched : List (α × α)) :
    ∀ (s : BState) (t : α),
      (runSM s t sched).1 = stateOfIndex (stIdx s + transCount s t sched) := by
  induction sched with
  | nil =>
      intro s t
      simp only [runSM, transCount, Nat.add_zero]
      exact (stateOfIndex_stIdx s).symm
  | cons hd rest ih =>
      intro s t
      obtain ⟨dt, r⟩ := hd
      by_cases h : t + dt > stateTimings s + r * 2
      · have hstep : stepBeingState s t dt r = (nextState s, (0 : α)) := by
          rw [stepBeingState, if_pos h]
        simp only [runSM, transCount, hstep, if_pos h]
        rw [ih (nextState s) 0]
        exact stateOfIndex_next s (transCount (nextState s) (0 : α) rest)
      · have hstep : stepBeingState s t dt r = (s, t + dt) := by
          rw [stepBeingState, if_neg h]
        simp only [runSM, transCount, hstep, if_neg h]
        rw [ih s (t + dt)]
        simp

/-! ### Opacity trace of one particle of a Being

`opSimStep` combines the per-frame state-machine step of `updateBeing` with
the opacity component of `updateParticle` for one particle: the particle
update runs after the transition check and reads the already-updated
`state`/`stateTimer` (lines 274-289 then 293-363). -/

/-- Joint state of (being state, being stateTimer, one particle's opacity). -/
structure OpSim (α : Type) where
  state : BState
  timer : α
  opacity : α
deriving DecidableEq

/-- One engine frame restricted to the state machine and one particle's
opacity.  `orig` is the particle's `originalOpacity`; `dt` the frame's
`deltaTime`; `rand` the `Math.random()` draw of the transition check. -/
def opSimStep {α : Type} [LinearOrderedField α] (orig : α) (st : OpSim α)
    (dt rand : α) : OpSim α :=
  let p := stepBeingState st.state st.timer dt rand
  { state := p.1
    timer := p.2
    opacity := opacityStep st.opacity (opacityTarget orig p.1 p.2) }

/-- `opSimStep` iterated over a schedule of `(deltaTime, rand)` frames. -/
def opSimRun {α : Type} [LinearOrderedField α] (orig : α) (st : OpSim α)
    (sched : List (α × α)) : OpSim α :=
  sched.foldl (fun acc pr => opSimStep orig acc pr.1 pr.2) st

/-! ### Point sampler (`extractPointsFromMesh` / `generateHumanSilhouettePoints`)

Only the *number* of produced points is modelled (the coordinates involve
fresh `Math.random()` draws and are irrelevant to the claims below; every
produced point is a concrete `THREE.Vector3`, i.e. non-null). -/

/-- Number of iterations of a JS loop `for (let i = 0; i < bound; i++)`
whose bound is a (possibly fractional, possibly negative) number. -/
def itersQ (bound : ℚ) : ℕ := (Int.ceil bound).toNat

/-- `headCount = Math.floor(count * 0.15)` (line 131). -/
def headCount (count : ℤ) : ℤ := Int.floor ((count : ℚ) * (15 / 100))

/-- `torsoCount = Math.floor(count * 0.35)` (line 145). -/
def torsoCount (count : ℤ) : ℤ := Int.floor ((count : ℚ) * (35 / 100))

/-- `armCount = Math.floor(count * 0.25)` (line 159). -/
def armCount (count : ℤ) : ℤ := Int.floor ((count : ℚ) * (25 / 100))

/-- Number of points in `points` after the head, torso and arm loops of
`generateHumanSilhouettePoints(count)` (lines 130-171): the head loop runs
`headCount` times, the torso loop `torsoCount` times, and each of the two
arm loops runs `ceil(armCount / 2)` times
(`for (let i = 0; i < armCount / 2; i++)`). -/
def silhouettePts (count : ℤ) : ℕ :=
  (headCount count).toNat + (torsoCount count).toNat +
    2 * itersQ ((armCount count : ℚ) / 2)

/-- Number of points returned by `generateHumanSilhouettePoints(count)`
(lines 117-189): after the head/torso/arm loops,
`legCount = count - points.length` and each of the two leg loops runs
`ceil(legCount / 2)` times. -/
def silhouetteCount (count : ℤ) : ℕ :=
  silhouettePts count +
    2 * itersQ (((count - (silhouettePts count : ℤ) : ℤ) : ℚ) / 2)

/-- Number of points returned by `extractPointsFromMesh(mesh, targetCount)`
(lines 77-114).  `geomVerts = none` models `!mesh || !mesh.geometry`
(immediate fallback to the silhouette generator, lines 80-83); otherwise
`geomVerts = some n` is the vertex count of the buffer geometry.  With
`targetCount ≥ 1` and `n ≥ 1`, the stride loop (step
`max(1, floor(n / targetCount))`) collects `min targetCount n` points and
the random-interpolation fill loop (lines 102-111) tops the list up to
exactly `targetCount`; when nothing was collected (empty buffer or
`targetCount ≤ 0`) line 113 falls back to the silhouette generator. -/
def extractPointsFromMeshCount (geomVerts : Option ℕ) (targetCount : ℤ) : ℕ :=
  match geomVerts with
  | none => silhouetteCount targetCount
  | some n =>
      let collected := min targetCount.toNat n
      if collected = 0 then silhouetteCount targetCount else targetCount.toNat

/-- The part of the Being created by `convertToParticleBeing(mesh, pos, opts)`
(lines 38-74) relevant to claim C1, for a null/geometry-less `mesh`: one
particle is created per extracted point (lines 58-65), each with a non-null
`targetPosition`, and `userData.state = 'forming'`, `stateTimer = 0`. -/
structure BeingInit where
  numParticles : ℕ
  state : BState
  stateTimer : ℚ
deriving DecidableEq

/-- `convertToParticleBeing` on a source with no usable geometry. -/
def convertToParticleBeingNull (particleCount : ℤ) : BeingInit :=
  { numParticles := extractPointsFromMeshCount none particleCount
    state := BState.forming
    stateTimer := 0 }

/-- Evaluation rule for `itersQ` at a positive concrete bound. -/
theorem itersQ_eq_of (b : ℚ) (n : ℕ) (h1 : (n : ℚ) - 1 < b) (h2 : b ≤ (n : ℚ)) :
    itersQ b = n := by
  have hc : Int.ceil b = (n : ℤ) := by
    rw [Int.ceil_eq_iff]
    constructor
    · push_cast
      exact h1
    · push_cast
      exact h2
  rw [itersQ, hc]
  simp

/-- A JS loop with a nonpositive bound runs zero times. -/
theorem itersQ_eq_zero (b : ℚ) (h : b ≤ 0) : itersQ b = 0 := by
  have hc : Int.ceil b ≤ 0 := Int.ceil_le.mpr (by exact_mod_cast h)
  rw [itersQ]
  omega

/-- A JS loop with a positive bound runs at least once. -/
theorem itersQ_pos (b : ℚ) (h : 0 < b) : 1 ≤ itersQ b := by
  have hc : 0 < Int.ceil b := Int.ceil_pos.mpr h
  rw [itersQ]
  omega

/-! ### 3-D vectors

`Vec3 α` models `THREE.Vector3` componentwise; real-valued instantiations
are used wherever the code takes lengths (`Math.sqrt`). -/

/-- A `THREE.Vector3`. -/
structure Vec3 (α : Type) where
  x : α
  y : α
  z : α
deriving DecidableEq

namespace Vec3

variable {α : Type}

instance [Add α] : Add (Vec3 α) := ⟨fun a b => ⟨a.x + b.x, a.y + b.y, a.z + b.z⟩⟩

instance [Sub α] : Sub (Vec3 α) := ⟨fun a b => ⟨a.x - b.x, a.y - b.y, a.z - b.z⟩⟩

/-- `THREE.Vector3.multiplyScalar`. -/
def scale [Mul α] (c : α) (v : Vec3 α) : Vec3 α := ⟨c * v.x, c * v.y, c * v.z⟩

@[simp] theorem add_x [Add α] (a b : Vec3 α) : (a + b).x = a.x + b.x := rfl

@[simp] theorem add_y [Add α] (a b : Vec3 α) : (a + b).y = a.y + b.y := rfl

@[simp] theorem add_z [Add α] (a b : Vec3 α) : (a + b).z = a.z + b.z := rfl

@[simp] theorem sub_x [Sub α] (a b : Vec3 α) : (a - b).x = a.x - b.x := rfl

@[simp] theorem sub_y [Sub α] (a b : Vec3 α) : (a - b).y = a.y - b.y := rfl

@[simp] theorem sub_z [Sub α] (a b : Vec3 α) : (a - b).z = a.z - b.z := rfl

@[simp] theorem scale_x [Mul α] (c : α) (v : Vec3 α) : (scale c v).x = c * v.x := rfl

@[simp] theorem scale_y [Mul α] (c : α) (v : Vec3 α) : (scale c v).y = c * v.y := rfl

@[simp] theorem scale_z [Mul α] (c : α) (v : Vec3 α) : (scale c v).z = c * v.z := rfl

end Vec3

/-- `THREE.Vector3.lerpVectors(a, b, t) = a + t * (b - a)`. -/
def vlerp {α : Type} [LinearOrderedField α] (a b : Vec3 α) (t : α) : Vec3 α :=
  a + Vec3.scale t (b - a)

/-- `THREE.Vector3.length()`: `Math.sqrt(x*x + y*y + z*z)`. -/
noncomputable def vlen (v : Vec3 ℝ) : ℝ := Real.sqrt (v.x ^ 2 + v.y ^ 2 + v.z ^ 2)

/-- `a.distanceTo(b)`. -/
noncomputable def vdist (a b : Vec3 ℝ) : ℝ := vlen (a - b)

/-- `THREE.Vector3.normalize()`: `divideScalar(length() || 1)`; the zero
vector (length `0`) is divided by `1`, i.e. left unchanged. -/
noncomputable def vnormalize (v : Vec3 ℝ) : Vec3 ℝ :=
  if vlen v = 0 then v else Vec3.scale (vlen v)⁻¹ v

/-- Dot product (used only in theorem statements about force directions). -/
def vdot {α : Type} [LinearOrderedField α] (a b : Vec3 α) : α :=
  a.x * b.x + a.y * b.y + a.z * b.z

/-! ### Particles and per-particle update (`updateParticle`, lines 293-377) -/

/-- A Being particle: `particle.position`, `particle.material.opacity` and
the fields of `particle.userData` set in `createParticle` (lines 221-227),
plus an identifier for the scene-membership model. -/
structure PState where
  pos : Vec3 ℝ
  vel : Vec3 ℝ
  targetPosition : Vec3 ℝ
  scatteredPosition : Vec3 ℝ
  opacity : ℝ
  originalOpacity : ℝ
  oscillationPhase : ℝ
  particleIndex : ℕ
  id : ℕ

/-- The fields of `being.userData` read by `updateParticle`. -/
structure BeingCtx where
  state : BState
  stateTimer : ℝ
  transformationPhase : ℝ
  basePosition : Vec3 ℝ

/-- The per-state position target of the `switch` (lines 300-337):
forming uses `targetPosition`; stable scales `targetPosition` by
`1 + sin(transformationPhase * 2) * 0.1` and re-adds `basePosition`;
dissolving is `lerpVectors(targetPosition, scatteredPosition,
stateTimer / stateTimings.dissolving)` (default timing `3`, unclamped);
scattered adds a per-particle sine/cosine wander to `scatteredPosition`. -/
noncomputable def stateTargetPos (c : BeingCtx) (p : PState) : Vec3 ℝ :=
  match c.state with
  | BState.forming => p.targetPosition
  | BState.stable =>
      Vec3.scale (1 + Real.sin (c.transformationPhase * 2) * (1 / 10))
        p.targetPosition + c.basePosition
  | BState.dissolving => vlerp p.targetPosition p.scatteredPosition (c.stateTimer / 3)
  | BState.scattered =>
      p.scatteredPosition +
        (⟨Real.sin (c.transformationPhase + p.particleIndex) * 5,
          Real.cos (c.transformationPhase * (1 / 2) + p.particleIndex) * 3,
          Real.sin (c.transformationPhase * (7 / 10) + p.particleIndex) * 5⟩ : Vec3 ℝ)

/-- Containment (lines 370-376): if the post-move position is more than
`maxDistance = 25` away from `basePosition`, add
`normalize(basePosition - position) * 0.01` to the velocity. -/
noncomputable def containVelocity (basePos pos vel : Vec3 ℝ) : Vec3 ℝ :=
  if vdist pos basePos > 25 then
    vel + Vec3.scale (1 / 100) (vnormalize (basePos - pos))
  else vel

/-- The turbulence vector of lines 349-353, a deterministic function of the
engine clock and the particle index
(`turbulenceStrength = 0.008` by default). -/
noncomputable def turbulenceVec (time : ℝ) (particleIndex : ℕ) : Vec3 ℝ :=
  ⟨Real.sin (time * (24 / 10) + particleIndex * (1 / 10)) * (8 / 1000),
   Real.cos (time * (16 / 10) + particleIndex * (15 / 100)) * (8 / 1000),
   Real.sin (time * 2 + particleIndex * (12 / 100)) * (8 / 1000)⟩

/-- `updateParticle(particle, beingData, deltaTime)` (lines 293-377) with the
default options.  `time` is the engine clock `this.time` (already advanced by
`update`).  Note that the body never reads `deltaTime`: every term of the
integration is per-frame. `attractionForces` is total on the four states, so
the `|| 0.02` fallback on line 298 is never taken. -/
noncomputable def updateParticleR (time : ℝ) (c : BeingCtx) (p : PState)
    (_deltaTime : ℝ) : PState :=
  let targetPos := stateTargetPos c p
  let targetOpacity := opacityTarget p.originalOpacity c.state c.stateTimer
  let direction := targetPos - p.pos
  let distance := vlen direction
  let vel1 :=
    if distance > 1 / 10 then
      p.vel + Vec3.scale (attractionForces c.state * min distance 5) (vnormalize direction)
    else p.vel
  let vel2 := vel1 + turbulenceVec time p.particleIndex
  let vel3 := Vec3.scale (95 / 100) vel2
  let pos1 := p.pos + vel3
  let oscPhase := p.oscillationPhase + 16 / 1000
  let pos2 := pos1 + (⟨0, Real.sin oscPhase * (5 / 100), 0⟩ : Vec3 ℝ)
  { p with
    pos := pos2
    vel := containVelocity c.basePosition pos2 vel3
    opacity := opacityStep p.opacity targetOpacity
    oscillationPhase := oscPhase }

/-- `applyMouseInfluence` restricted to one particle (lines 412-428):
`mouseInfluence = (mouseX*2, mouseY*2, 0)`; the *radius test* measures the
distance of the particle to `(mouseInfluence.x*10, mouseInfluence.y*10 + 5, 0)`
and the *force* pushes toward `mouseInfluence` itself, with magnitude
`0.01 * strength`. -/
noncomputable def applyMouseParticle (mouseX mouseY strength : ℝ) (p : PState) :
    PState :=
  let mouseInfluence : Vec3 ℝ := ⟨mouseX * 2, mouseY * 2, 0⟩
  let d := vdist p.pos ⟨mouseInfluence.x * 10, mouseInfluence.y * 10 + 5, 0⟩
  if d < 10 then
    { p with
      vel := p.vel +
        Vec3.scale (1 / 100 * strength) (vnormalize (mouseInfluence - p.pos)) }
  else p

/-! ### Ambient particles (`updateAmbientParticles`, lines 380-398) -/

/-- An ambient particle (`createAmbientParticles`, lines 233-267). -/
structure AmbientP (α : Type) where
  pos : Vec3 α
  vel : Vec3 α
  drift : Vec3 α
  opacity : α
  id : ℕ
deriving DecidableEq

/-- Toroidal wrap of lines 387-392: each coordinate strictly beyond its
bound is moved to the opposite extreme (x/z boxes are `[-30, 30]`, the y box
is `[0, 20]`). -/
def ambientWrap {α : Type} [LinearOrderedField α] (p : Vec3 α) : Vec3 α :=
  let x1 := if p.x > 30 then (-30 : α) else p.x
  let x2 := if x1 < -30 then (30 : α) else x1
  let z1 := if p.z > 30 then (-30 : α) else p.z
  let z2 := if z1 < -30 then (30 : α) else z1
  let y1 := if p.y > 20 then (0 : α) else p.y
  let y2 := if y1 < 0 then (20 : α) else y1
  ⟨x2, y2, z2⟩

/-- The motion part of one ambient-particle frame (lines 382-392):
`velocity += drift; position += velocity; velocity *= 0.98;` then the wrap.
The wrap touches only the position. -/
def ambientIntegrate {α : Type} [LinearOrderedField α] (a : AmbientP α) :
    AmbientP α :=
  let v1 := a.vel + a.drift
  let pos1 := a.pos + v1
  { a with pos := ambientWrap pos1, vel := Vec3.scale (98 / 100) v1 }

/-- A full ambient-particle frame (lines 381-397): motion + wrap, then the
opacity assignment
`opacity = (0.1 + Math.random() * 0.2) * (1 + sin(time*2 + x*0.1) * 0.1)`
(`rand` is this frame's `Math.random()` draw; `x` is the post-wrap
x-coordinate). -/
noncomputable def updateAmbientR (time : ℝ) (a : AmbientP ℝ) (rand : ℝ) :
    AmbientP ℝ :=
  let b := ambientIntegrate a
  { b with
    opacity :=
      (1 / 10 + rand * (2 / 10)) *
        (1 + Real.sin (time * 2 + b.pos.x * (1 / 10)) * (1 / 10)) }

/-! ### The engine (`ParticleBeingSystem`) -/

/-- One Being (`convertToParticleBeing`, lines 40-52): its `userData` fields
used by `updateBeing`, its particle list, and the index of its original mesh
in the world's mesh table (`none` models a null source). -/
structure BeingR where
  ctx : BeingCtx
  transformationSpeed : ℝ
  particles : List PState
  meshIdx : Option ℕ

/-- `updateBeing(being, deltaTime)` (lines 270-290): advance
`transformationPhase` and the state machine, then update every particle with
the already-updated being data.  `rand` is the `Math.random()` draw of this
frame's transition check. -/
noncomputable def updateBeingR (time : ℝ) (b : BeingR) (dt rand : ℝ) : BeingR :=
  let st := stepBeingState b.ctx.state b.ctx.stateTimer dt rand
  let ctx' : BeingCtx :=
    { state := st.1
      stateTimer := st.2
      transformationPhase := b.ctx.transformationPhase + b.transformationSpeed * dt
      basePosition := b.ctx.basePosition }
  { b with
    ctx := ctx'
    particles := b.particles.map (fun p => updateParticleR time ctx' p dt) }

/-- Engine state: `this.beings`, `this.ambientParticles`, `this.time`, plus
the scene collaborator (the ids of the drawables it holds) and the visibility
flags of the callers' meshes. -/
structure WorldR where
  beings : List BeingR
  ambient : List (AmbientP ℝ)
  time : ℝ
  scene : List ℕ
  meshes : List Bool

/-- `update(deltaTime)` (lines 401-409): `this.time += deltaTime`, then
`updateBeing` for every being and `updateAmbientParticles`.  `jit i` and
`arand i` are the `Math.random()` draws consumed by the i-th being's
transition check and the i-th ambient particle's opacity assignment. -/
noncomputable def updateWorld (w : WorldR) (dt : ℝ) (jit arand : ℕ → ℝ) : WorldR :=
  { w with
    time := w.time + dt
    beings := w.beings.mapIdx (fun i b => updateBeingR (w.time + dt) b dt (jit i))
    ambient := w.ambient.mapIdx (fun i a => updateAmbientR (w.time + dt) a (arand i)) }

/-- `applyMouseInfluence(mouseX, mouseY, strength)` (lines 412-429). -/
noncomputable def applyMouseInfluenceR (mouseX mouseY strength : ℝ) (w : WorldR) :
    WorldR :=
  { w with
    beings := w.beings.map (fun b =>
      { b with particles := b.particles.map (applyMouseParticle mouseX mouseY strength) }) }

/-- `dispose()` (lines 432-452): remove every being particle and every
ambient particle from the scene, restore `originalMesh.visible = true` for
every being that has one, and clear both collections.  The clock is not
touched. -/
def disposeW (w : WorldR) : WorldR :=
  let ids :=
    (w.beings.flatMap (fun b => b.particles.map (fun p => p.id))) ++
      w.ambient.map (fun a => a.id)
  { beings := []
    ambient := []
    time := w.time
    scene := w.scene.filter (fun pid => !(ids.contains pid))
    meshes :=
      w.beings.foldl (fun ms b =>
        match b.meshIdx with
        | some i => ms.set i true
        | none => ms) w.meshes }

/-! ### Concrete inputs used by counterexamples and witnesses -/

/-- A legal frame schedule: frame 1 leaves `forming` (`dt = 5`, jitter `0`),
frame 2 leaves `stable` (`dt = 4`, jitter `0`), frame 3 advances deep into
`dissolving` (`dt = 4.9`) and frames 4-28 stay there because every transition
check draws `Math.random() = 199/200`, i.e. jitter `1.99`, so the threshold
is `3 + 1.99 = 4.99` while the timer only reaches `4.925`. -/
def schedC5 : List (ℚ × ℚ) :=
  [(5, 0), (4, 0), (49/10, 199/200),
   (1/1000, 199/200),
   (1/1000, 199/200),
   (1/1000, 199/200),
   (1/1000, 199/200),
   (1/1000, 199/200),
   (1/1000, 199/200),
   (1/1000, 199/200),
   (1/1000, 199/200),
   (1/1000, 199/200),
   (1/1000, 199/200),
   (1/1000, 199/200),
   (1/1000, 199/200),
   (1/1000, 199/200),
   (1/1000, 199/200),
   (1/1000, 199/200),
   (1/1000, 199/200),
   (1/1000, 199/200),
   (1/1000, 199/200),
   (1/1000, 199/200),
   (1/1000, 199/200),
   (1/1000, 199/200),
   (1/1000, 199/200),
   (1/1000, 199/200),
   (1/1000, 199/200),
   (1/1000, 199/200)]

/-- Being data for the dt = 0 counterexample: `forming`, clock and phase `0`. -/
noncomputable def zeroDtCtx : BeingCtx :=
  { state := BState.forming
    stateTimer := 0
    transformationPhase := 0
    basePosition := ⟨0, 0, 0⟩ }

/-- A particle already at its formed target, with unit velocity along x and
an oscillation phase that makes this frame's bob `sin(2π) * 0.05 = 0`. -/
noncomputable def zeroDtParticle : PState :=
  { pos := ⟨5, 0, 0⟩
    vel := ⟨1, 0, 0⟩
    targetPosition := ⟨5, 0, 0⟩
    scatteredPosition := ⟨0, 0, 0⟩
    opacity := 7/10
    originalOpacity := 7/10
    oscillationPhase := 2 * Real.pi - 16/1000
    particleIndex := 0
    id := 0 }

/-- A particle displaced to distance 30 > maxRadius from its anchor, still
moving outward with unit velocity. -/
noncomputable def farParticle : PState :=
  { pos := ⟨30, 0, 0⟩
    vel := ⟨1, 0, 0⟩
    targetPosition := ⟨30, 0, 0⟩
    scatteredPosition := ⟨0, 0, 0⟩
    opacity := 7/10
    originalOpacity := 7/10
    oscillationPhase := 2 * Real.pi - 16/1000
    particleIndex := 0
    id := 0 }

/-- A particle at `(2, 1, 0)`: distance 1 from the force point `(2, 0, 0)`
of `applyMouseInfluence(1, 0, 1)` but distance `sqrt 340 > 10` from the
tested point `(20, 5, 0)`. -/
noncomputable def mouseFarParticle : PState :=
  { pos := ⟨2, 1, 0⟩
    vel := ⟨0, 0, 0⟩
    targetPosition := ⟨0, 0, 0⟩
    scatteredPosition := ⟨0, 0, 0⟩
    opacity := 7/10
    originalOpacity := 7/10
    oscillationPhase := 0
    particleIndex := 0
    id := 0 }

/-- A particle at `(0, 1, 0)`, within radius 10 of the tested point
`(0, 5, 0)` of `applyMouseInfluence(0, 0, 1)`. -/
noncomputable def mouseNearParticle : PState :=
  { pos := ⟨0, 1, 0⟩
    vel := ⟨0, 0, 0⟩
    targetPosition := ⟨0, 0, 0⟩
    scatteredPosition := ⟨0, 0, 0⟩
    opacity := 7/10
    originalOpacity := 7/10
    oscillationPhase := 0
    particleIndex := 0
    id := 0 }

/-- Being data in `dissolving` at `stateTimer = 3/2`, anchored at the origin. -/
noncomputable def dissolvingCtx : BeingCtx :=
  { state := BState.dissolving
    stateTimer := 3/2
    transformationPhase := 0
    basePosition := ⟨0, 0, 0⟩ }

/-- An ambient particle whose integrated position `(31, 21, -31)` exceeds
the box on all three axes. -/
def wrapAmbient : AmbientP ℚ :=
  { pos := ⟨31, 21, -31⟩
    vel := ⟨0, 0, 0⟩
    drift := ⟨0, 0, 0⟩
    opacity := 1/10
    id := 0 }

/-- An ambient particle at the origin (ℝ-valued, for the opacity bound). -/
noncomputable def originAmbient : AmbientP ℝ :=
  { pos := ⟨0, 0, 0⟩
    vel := ⟨0, 0, 0⟩
    drift := ⟨0, 0, 0⟩
    opacity := 1/10
    id := 0 }

/-- A freshly disposed / empty engine. -/
noncomputable def emptyWorld : WorldR :=
  { beings := []
    ambient := []
    time := 0
    scene := []
    meshes := [] }

/-! ## Claim theorems -/

/-- Helper: the silhouette generator yields no points for `count ≤ 0`. -/
theorem silhouetteCount_nonpos (c : ℤ) (h : c ≤ 0) : silhouetteCount c = 0 := by
  have hcq : (c : ℚ) ≤ 0 := by exact_mod_cast h
  have hhead : (headCount c).toNat = 0 := by
    rw [Int.toNat_eq_zero]
    apply Int.floor_nonpos
    nlinarith
  have htor : (torsoCount c).toNat = 0 := by
    rw [Int.toNat_eq_zero]
    apply Int.floor_nonpos
    nlinarith
  have harm : armCount c ≤ 0 := by
    apply Int.floor_nonpos
    nlinarith
  have harm2 : itersQ ((armCount c : ℚ) / 2) = 0 := by
    apply itersQ_eq_zero
    have : (armCount c : ℚ) ≤ 0 := by exact_mod_cast harm
    linarith
  have hpts : silhouettePts c = 0 := by
    rw [silhouettePts, hhead, htor, harm2]
  rw [silhouetteCount, hpts]
  have hleg : itersQ (((c - ((0 : ℕ) : ℤ) : ℤ) : ℚ) / 2) = 0 := by
    apply itersQ_eq_zero
    push_cast
    linarith
  rw [hleg]

/-- Helper: the silhouette generator yields at least one point for
`count ≥ 1` (if the head/torso/arm loops produced nothing, the leg loops
run `ceil(count / 2) ≥ 1` times each). -/
theorem silhouetteCount_pos (c : ℤ) (h : 1 ≤ c) : 1 ≤ silhouetteCount c := by
  by_cases hp : silhouettePts c = 0
  · rw [silhouetteCount, hp]
    have h1 : 1 ≤ itersQ (((c - ((0 : ℕ) : ℤ) : ℤ) : ℚ) / 2) := by
      apply itersQ_pos
      have : (1 : ℚ) ≤ (c : ℚ) := by exact_mod_cast h
      push_cast
      linarith
    omega
  · have h1 : 1 ≤ silhouettePts c := Nat.pos_of_ne_zero hp
    rw [silhouetteCount]
    omega

/-- Helper: evaluation of the silhouette generator at `count = 64`:
`9` head + `22` torso + `2 * ceil(16 / 2) = 16` arm points leave
`legCount = 17`, and the two leg loops run `ceil(17 / 2) = 9` times each,
for a total of `47 + 18 = 65` points. -/
theorem silhouetteCount_64 : silhouetteCount 64 = 65 := by
  have hp : silhouettePts 64 = 47 := by
    have ha : itersQ ((armCount 64 : ℚ) / 2) = 8 := by
      have h16 : armCount 64 = 16 := by norm_num [armCount]
      rw [h16]
      exact itersQ_eq_of _ 8 (by norm_num) (by norm_num)
    rw [silhouettePts, ha]
    norm_num [headCount, torsoCount]
    decide
  rw [silhouetteCount, hp]
  have hl : itersQ (((64 - ((47 : ℕ) : ℤ) : ℤ) : ℚ) / 2) = 9 := by
    norm_num
    exact itersQ_eq_of _ 9 (by norm_num) (by norm_num)
  norm_num at hl ⊢
  rw [hl]

/-- C1: `convert(null, anchor, {particleCount: 64})` does create a Being
whose initial state is `forming` and all of whose particles come from the
procedural silhouette generator — but it creates 65 particles, not 64: the
generator's leg loops each run `ceil(17/2) = 9` times, overshooting the
requested count by one.  This contradicts both the claim and the sampler
contract `sample(source, count) -> count points`. -/
theorem convert_null_64_yields_65 :
    (convertToParticleBeingNull 64).numParticles = 65
      ∧ (convertToParticleBeingNull 64).state = BState.forming
      ∧ (convertToParticleBeingNull 64).numParticles ≠ 64 := by
  have h64 : (convertToParticleBeingNull 64).numParticles = 65 := by
    show silhouetteCount 64 = 65
    exact silhouetteCount_64
  refine ⟨h64, rfl, ?_⟩
  rw [h64]
  decide

/-- C3 counterexample: `count = 0` is *not* clamped to 1 — the sampler
returns the empty point sequence (every loop of the silhouette generator
runs zero times), so `convert` would create a Being with zero particles. -/
theorem sampler_count_zero_yields_empty :
    extractPointsFromMeshCount none 0 = 0
      ∧ (convertToParticleBeingNull 0).numParticles = 0 := by
  have h : silhouetteCount 0 = 0 := silhouetteCount_nonpos 0 (le_refl 0)
  exact ⟨h, h⟩

/-- C3 (amended): the sampler never throws and an invalid/missing source
resolves to the procedural generator, and for `count ≥ 1` it returns a
non-empty sequence (exactly `count` points when a non-empty vertex buffer is
supplied); but `count ≤ 0` is **not** clamped to 1 — it yields the empty
sequence. -/
theorem sampler_fallback_and_count (cz cp : ℤ) (n : ℕ)
    (hz : cz ≤ 0) (hp : 1 ≤ cp) (hn : 1 ≤ n) :
    extractPointsFromMeshCount none cz = silhouetteCount cz
      ∧ silhouetteCount cz = 0
      ∧ extractPointsFromMeshCount (some 0) cp = silhouetteCount cp
      ∧ 1 ≤ silhouetteCount cp
      ∧ extractPointsFromMeshCount (some n) cp = cp.toNat := by
  refine ⟨rfl, silhouetteCount_nonpos cz hz, ?_, silhouetteCount_pos cp hp, ?_⟩
  · simp [extractPointsFromMeshCount]
  · have h1 : ¬ (min cp.toNat n = 0) := by omega
    simp only [extractPointsFromMeshCount]
    rw [if_neg h1]

/-- C3 witness. -/
theorem sampler_fallback_and_count_witness :
    extractPointsFromMeshCount none (-3) = silhouetteCount (-3)
      ∧ silhouetteCount (-3) = 0
      ∧ extractPointsFromMeshCount (some 0) 5 = silhouetteCount 5
      ∧ 1 ≤ silhouetteCount 5
      ∧ extractPointsFromMeshCount (some 9) 5 = Int.toNat 5 :=
  sampler_fallback_and_count (-3) 5 9 (by norm_num) (by norm_num) (by norm_num)

/-- C2: starting from `forming`, the state sequence of `updateBeing` under
any schedule of frames is exactly the forward 4-cycle
`forming, stable, dissolving, scattered, forming, …` — the state reached is
the start advanced by the number of transitions, with no skip and no
reversal; each frame either leaves the state and (incremented) timer alone,
or advances to the immediate successor and resets the timer to `0`, and the
latter happens exactly when the incremented timer exceeds the state's
nominal duration plus the jitter `Math.random() * 2 ∈ [0, 2)` drawn on that
frame's check. -/
theorem state_cycle_order (sched : List (ℚ × ℚ)) (s : BState) (t dt r : ℚ)
    (hr0 : 0 ≤ r) (hr1 : r < 1) :
    (runSM BState.forming 0 sched).1 =
        stateOfIndex (transCount BState.forming (0 : ℚ) sched)
      ∧ ((stepBeingState s t dt r = (nextState s, 0) ∧
            t + dt > stateTimings s + r * 2)
          ∨ (stepBeingState s t dt r = (s, t + dt) ∧
            ¬ t + dt > stateTimings s + r * 2))
      ∧ nextState BState.forming = BState.stable
      ∧ nextState BState.stable = BState.dissolving
      ∧ nextState BState.dissolving = BState.scattered
      ∧ nextState BState.scattered = BState.forming
      ∧ 0 ≤ r * 2 ∧ r * 2 < 2 := by
  refine ⟨?_, ?_, rfl, rfl, rfl, rfl, by linarith, by linarith⟩
  · have h := runSM_cycle sched BState.forming (0 : ℚ)
    simpa [stIdx] using h
  · by_cases h : t + dt > stateTimings s + r * 2
    · exact Or.inl ⟨by rw [stepBeingState, if_pos h], h⟩
    · exact Or.inr ⟨by rw [stepBeingState, if_neg h], h⟩

/-- C2 witness. -/
theorem state_cycle_order_witness :
    (runSM BState.forming 0 [((5 : ℚ), 0), (4, 0)]).1 =
        stateOfIndex (transCount BState.forming (0 : ℚ) [((5 : ℚ), 0), (4, 0)])
      ∧ ((stepBeingState BState.forming (0 : ℚ) 5 (1/2) =
            (nextState BState.forming, 0) ∧
            (0 : ℚ) + 5 > stateTimings BState.forming + (1/2) * 2)
          ∨ (stepBeingState BState.forming (0 : ℚ) 5 (1/2) =
            (BState.forming, 0 + 5) ∧
            ¬ (0 : ℚ) + 5 > stateTimings BState.forming + (1/2) * 2))
      ∧ nextState BState.forming = BState.stable
      ∧ nextState BState.stable = BState.dissolving
      ∧ nextState BState.dissolving = BState.scattered
      ∧ nextState BState.scattered = BState.forming
      ∧ (0 : ℚ) ≤ (1/2) * 2 ∧ (1/2 : ℚ) * 2 < 2 :=
  state_cycle_order [((5 : ℚ), 0), (4, 0)] BState.forming 0 5 (1/2)
    (by norm_num) (by norm_num)

/-- C4 counterexample: with the default dissolving duration 3, a particle
whose Being sits in `dissolving` at `stateTimer = 4` (reachable, since the
transition check allows the timer to run up to `3 + jitter` with jitter up
to 2) gets dissolve progress `4/3`, which is not clamped to `[0, 1]`, and an
opacity target `0.7 * (1 - 4/3) < 0` — the claim's "never negative" fails. -/
theorem dissolving_opacity_target_negative :
    opacityTarget (7/10 : ℚ) BState.dissolving 4 < 0 ∧ ¬ ((4 : ℚ) / 3 ≤ 1) := by
  constructor
  · norm_num [opacityTarget]
  · norm_num

/-- C4 (amended): in `dissolving` the target position is
`lerpVectors(formedTarget, scatteredTarget, stateTimer / 3)` and the opacity
target is `baseOpacity * (1 - stateTimer / 3)`, with the progress quotient
**unclamped**; the opacity target is nonnegative exactly on the nominal
range `stateTimer ≤ 3` (for nonnegative `baseOpacity`), and can go negative
once the jitter lets `stateTimer` exceed the nominal duration. -/
theorem dissolving_target_formula (c : BeingCtx) (p : PState)
    (hs : c.state = BState.dissolving) (h0 : 0 ≤ c.stateTimer)
    (h3 : c.stateTimer ≤ 3) (hb : 0 ≤ p.originalOpacity) :
    stateTargetPos c p =
        vlerp p.targetPosition p.scatteredPosition (c.stateTimer / 3)
      ∧ opacityTarget p.originalOpacity c.state c.stateTimer =
          p.originalOpacity * (1 - c.stateTimer / 3)
      ∧ 0 ≤ c.stateTimer / 3 ∧ c.stateTimer / 3 ≤ 1
      ∧ 0 ≤ opacityTarget p.originalOpacity c.state c.stateTimer := by
  refine ⟨?_, ?_, by linarith, by linarith, ?_⟩
  · rw [stateTargetPos, hs]
  · rw [hs, opacityTarget]
  · rw [hs, opacityTarget]
    have h13 : 0 ≤ 1 - c.stateTimer / 3 := by linarith
    exact mul_nonneg hb h13

/-- C4 witness. -/
theorem dissolving_target_formula_witness :
    stateTargetPos dissolvingCtx zeroDtParticle =
        vlerp zeroDtParticle.targetPosition zeroDtParticle.scatteredPosition
          (dissolvingCtx.stateTimer / 3)
      ∧ opacityTarget zeroDtParticle.originalOpacity dissolvingCtx.state
          dissolvingCtx.stateTimer =
          zeroDtParticle.originalOpacity * (1 - dissolvingCtx.stateTimer / 3)
      ∧ 0 ≤ dissolvingCtx.stateTimer / 3 ∧ dissolvingCtx.stateTimer / 3 ≤ 1
      ∧ 0 ≤ opacityTarget zeroDtParticle.originalOpacity dissolvingCtx.state
          dissolvingCtx.stateTimer :=
  dissolving_target_formula dissolvingCtx zeroDtParticle rfl
    (by norm_num [dissolvingCtx]) (by norm_num [dissolvingCtx])
    (by norm_num [zeroDtParticle])

set_option maxRecDepth 16000 in
/-- C5 counterexample: a per-particle opacity can be driven below 0.  Along
the legal schedule `schedC5` (all `Math.random()` draws are `0` or
`199/200 ∈ [0,1)`, the initial opacity `0.7` is the minimum of
`0.7 + Math.random() * 0.3`), the Being enters `dissolving` and its jitter
keeps it there while `stateTimer` climbs to `4.925 > 3`; the opacity target
is then `0.7 * (1 - 4.925/3) < -0.44`, and 25 relaxation steps drag the
opacity itself below 0. -/
theorem particle_opacity_drops_below_zero :
    (opSimRun (7/10 : ℚ) ⟨BState.forming, 0, 7/10⟩ schedC5).opacity < 0
      ∧ (opSimRun (7/10 : ℚ) ⟨BState.forming, 0, 7/10⟩ schedC5).state =
          BState.dissolving := by
  constructor
  · norm_num [schedC5, opSimRun, opSimStep, opacityStep, opacityTarget,
      stepBeingState, List.foldl, stateTimings, nextState_forming,
      nextState_stable, nextState_dissolving, nextState_scattered]
  · norm_num [schedC5, opSimRun, opSimStep, opacityStep, opacityTarget,
      stepBeingState, List.foldl, stateTimings, nextState_forming,
      nextState_stable, nextState_dissolving, nextState_scattered]

/-- C5 (amended): the opacity bound `0 ≤ opacity ≤ 1` does hold for every
ambient particle (the assignment of line 396 always lands in
`[0.09, 0.33]`), and a Being particle's opacity stays in `[0, 1]` whenever
its target opacity is in `[0, 1]` — which is the case in forming, stable and
scattered, but *not* always in dissolving, where the unclamped progress can
push the target negative and repeated frames then drive the opacity itself
negative. -/
theorem opacity_bounds_amended (t rand op tgt : ℝ) (a : AmbientP ℝ)
    (hr0 : 0 ≤ rand) (hr1 : rand ≤ 1)
    (hop0 : 0 ≤ op) (hop1 : op ≤ 1) (ht0 : 0 ≤ tgt) (ht1 : tgt ≤ 1) :
    (0 ≤ (updateAmbientR t a rand).opacity
        ∧ (updateAmbientR t a rand).opacity ≤ 1)
      ∧ (0 ≤ opacityStep op tgt ∧ opacityStep op tgt ≤ 1) := by
  have hs1 := Real.neg_one_le_sin (t * 2 + (ambientIntegrate a).pos.x * (1 / 10))
  have hs2 := Real.sin_le_one (t * 2 + (ambientIntegrate a).pos.x * (1 / 10))
  have hA0 : (0 : ℝ) ≤ 1 / 10 + rand * (2 / 10) := by linarith
  have hA1 : 1 / 10 + rand * (2 / 10) ≤ (3 : ℝ) / 10 := by linarith
  have hB0 : (0 : ℝ) ≤
      1 + Real.sin (t * 2 + (ambientIntegrate a).pos.x * (1 / 10)) * (1 / 10) := by
    nlinarith
  have hB1 :
      1 + Real.sin (t * 2 + (ambientIntegrate a).pos.x * (1 / 10)) * (1 / 10) ≤
        (11 : ℝ) / 10 := by
    nlinarith
  refine ⟨⟨?_, ?_⟩, ?_, ?_⟩
  · simp only [updateAmbientR]
    exact mul_nonneg hA0 hB0
  · simp only [updateAmbientR]
    nlinarith
  · simp only [opacityStep]
    nlinarith
  · simp only [opacityStep]
    nlinarith

/-- C5 witness. -/
theorem opacity_bounds_amended_witness :
    (0 ≤ (updateAmbientR 0 originAmbient (1/2)).opacity
        ∧ (updateAmbientR 0 originAmbient (1/2)).opacity ≤ 1)
      ∧ (0 ≤ opacityStep (1/2 : ℝ) (1/2) ∧ opacityStep (1/2 : ℝ) (1/2) ≤ 1) :=
  opacity_bounds_amended 0 (1/2) (1/2) (1/2) originAmbient
    (by norm_num) (by norm_num) (by norm_num) (by norm_num)
    (by norm_num) (by norm_num)

/-- Helper: wrap of an x-overflow to the opposite extreme. -/
theorem ambientWrap_x_high {α : Type} [LinearOrderedField α] (p : Vec3 α)
    (h : p.x > 30) : (ambientWrap p).x = -30 := by
  simp only [ambientWrap, if_pos h]
  rw [if_neg (lt_irrefl (-30 : α))]

/-- Helper: wrap of an x-underflow to the opposite extreme. -/
theorem ambientWrap_x_low {α : Type} [LinearOrderedField α] (p : Vec3 α)
    (h : p.x < -30) : (ambientWrap p).x = 30 := by
  have h1 : ¬ p.x > 30 := by linarith
  simp only [ambientWrap, if_neg h1, if_pos h]

/-- Helper: wrap of a z-overflow to the opposite extreme. -/
theorem ambientWrap_z_high {α : Type} [LinearOrderedField α] (p : Vec3 α)
    (h : p.z > 30) : (ambientWrap p).z = -30 := by
  simp only [ambientWrap, if_pos h]
  rw [if_neg (lt_irrefl (-30 : α))]

/-- Helper: wrap of a z-underflow to the opposite extreme. -/
theorem ambientWrap_z_low {α : Type} [LinearOrderedField α] (p : Vec3 α)
    (h : p.z < -30) : (ambientWrap p).z = 30 := by
  have h1 : ¬ p.z > 30 := by linarith
  simp only [ambientWrap, if_neg h1, if_pos h]

/-- Helper: wrap of a y-overflow to the opposite extreme (the y box is
`[0, 20]`). -/
theorem ambientWrap_y_high {α : Type} [LinearOrderedField α] (p : Vec3 α)
    (h : p.y > 20) : (ambientWrap p).y = 0 := by
  simp only [ambientWrap, if_pos h]
  rw [if_neg (lt_irrefl (0 : α))]

/-- Helper: wrap of a y-underflow to the opposite extreme. -/
theorem ambientWrap_y_low {α : Type} [LinearOrderedField α] (p : Vec3 α)
    (h : p.y < 0) : (ambientWrap p).y = 20 := by
  have h1 : ¬ p.y > 20 := by linarith
  simp only [ambientWrap, if_neg h1, if_pos h]

/-- C10: after the integration step of an ambient frame, any coordinate
strictly beyond its box is repositioned to the opposite extreme of the same
axis (x/z boxes `[-30, 30]`, y box `[0, 20]`), the resulting velocity is the
damped `0.98 * (velocity + drift)` regardless of whether a wrap happened
(the wrap step never touches the velocity), and the full ambient update
(which only assigns the opacity afterwards) has exactly this position and
velocity. -/
theorem ambient_wrap_opposite (a : AmbientP ℚ) (t rand : ℝ) (b : AmbientP ℝ) :
    ((ambientIntegrate a).vel = Vec3.scale (98/100) (a.vel + a.drift))
      ∧ ((a.pos + (a.vel + a.drift)).x > 30 → (ambientIntegrate a).pos.x = -30)
      ∧ ((a.pos + (a.vel + a.drift)).x < -30 → (ambientIntegrate a).pos.x = 30)
      ∧ ((a.pos + (a.vel + a.drift)).z > 30 → (ambientIntegrate a).pos.z = -30)
      ∧ ((a.pos + (a.vel + a.drift)).z < -30 → (ambientIntegrate a).pos.z = 30)
      ∧ ((a.pos + (a.vel + a.drift)).y > 20 → (ambientIntegrate a).pos.y = 0)
      ∧ ((a.pos + (a.vel + a.drift)).y < 0 → (ambientIntegrate a).pos.y = 20)
      ∧ (updateAmbientR t b rand).pos = (ambientIntegrate b).pos
      ∧ (updateAmbientR t b rand).vel = (ambientIntegrate b).vel := by
  refine ⟨rfl, ?_, ?_, ?_, ?_, ?_, ?_, rfl, rfl⟩
  · intro h
    exact ambientWrap_x_high _ h
  · intro h
    exact ambientWrap_x_low _ h
  · intro h
    exact ambientWrap_z_high _ h
  · intro h
    exact ambientWrap_z_low _ h
  · intro h
    exact ambientWrap_y_high _ h
  · intro h
    exact ambientWrap_y_low _ h

/-- C10 witness: the concrete ambient particle `wrapAmbient` integrates to
`(31, 21, -31)`, beyond all three axes, and is wrapped to `(-30, 0, 30)`
with the velocity untouched by the wrap. -/
theorem ambient_wrap_opposite_witness :
    (ambientIntegrate wrapAmbient).pos.x = -30
      ∧ (ambientIntegrate wrapAmbient).pos.y = 0
      ∧ (ambientIntegrate wrapAmbient).pos.z = 30
      ∧ (ambientIntegrate wrapAmbient).vel =
          Vec3.scale (98/100) (wrapAmbient.vel + wrapAmbient.drift) := by
  have h := ambient_wrap_opposite wrapAmbient 0 0 originAmbient
  refine ⟨h.2.1 ?_, h.2.2.2.2.2.1 ?_, h.2.2.2.2.1 ?_, h.1⟩
  · norm_num [wrapAmbient]
  · norm_num [wrapAmbient]
  · norm_num [wrapAmbient]

/-! ### Vector toolkit for the real-valued model -/

theorem Vec3.ext_mk {α : Type} (a b : Vec3 α) (hx : a.x = b.x) (hy : a.y = b.y)
    (hz : a.z = b.z) : a = b := by
  cases a
  cases b
  simp_all

theorem vec_sub_self {α : Type} [LinearOrderedField α] (a : Vec3 α) :
    a - a = (⟨0, 0, 0⟩ : Vec3 α) := by
  apply Vec3.ext_mk <;> simp

theorem vec_sub_zero {α : Type} [LinearOrderedField α] (a : Vec3 α) :
    a - (⟨0, 0, 0⟩ : Vec3 α) = a := by
  apply Vec3.ext_mk <;> simp

theorem vec_add_sub_cancel {α : Type} [LinearOrderedField α] (a b : Vec3 α) :
    (a + b) - a = b := by
  apply Vec3.ext_mk <;> simp

theorem vlen_nonneg (v : Vec3 ℝ) : 0 ≤ vlen v := Real.sqrt_nonneg _

theorem vlen_zero : vlen (⟨0, 0, 0⟩ : Vec3 ℝ) = 0 := by
  unfold vlen
  norm_num

theorem vlen_eq_zero_iff (v : Vec3 ℝ) : vlen v = 0 ↔ v = (⟨0, 0, 0⟩ : Vec3 ℝ) := by
  constructor
  · intro h
    rw [vlen, Real.sqrt_eq_zero'] at h
    have hx : v.x = 0 := by nlinarith [sq_nonneg v.x, sq_nonneg v.y, sq_nonneg v.z]
    have hy : v.y = 0 := by nlinarith [sq_nonneg v.x, sq_nonneg v.y, sq_nonneg v.z]
    have hz : v.z = 0 := by nlinarith [sq_nonneg v.x, sq_nonneg v.y, sq_nonneg v.z]
    exact Vec3.ext_mk _ _ hx hy hz
  · intro h
    rw [h]
    exact vlen_zero

theorem vlen_pos_of_ne (v : Vec3 ℝ) (h : v ≠ (⟨0, 0, 0⟩ : Vec3 ℝ)) : 0 < vlen v := by
  rcases lt_or_eq_of_le (vlen_nonneg v) with h1 | h1
  · exact h1
  · exact absurd ((vlen_eq_zero_iff v).mp h1.symm) h

theorem vlen_scale (c : ℝ) (v : Vec3 ℝ) : vlen (Vec3.scale c v) = |c| * vlen v := by
  unfold vlen Vec3.scale
  rw [show ((c * v.x) ^ 2 + (c * v.y) ^ 2 + (c * v.z) ^ 2)
      = c ^ 2 * (v.x ^ 2 + v.y ^ 2 + v.z ^ 2) by ring]
  rw [Real.sqrt_mul (sq_nonneg c), Real.sqrt_sq_eq_abs]

theorem vlen_normalize (v : Vec3 ℝ) (h : v ≠ (⟨0, 0, 0⟩ : Vec3 ℝ)) :
    vlen (vnormalize v) = 1 := by
  have hl : vlen v ≠ 0 := fun h0 => h ((vlen_eq_zero_iff v).mp h0)
  have hlpos : 0 < vlen v := vlen_pos_of_ne v h
  rw [vnormalize, if_neg hl, vlen_scale, abs_inv, abs_of_pos hlpos]
  field_simp

theorem vlen_sub_comm (a b : Vec3 ℝ) : vlen (a - b) = vlen (b - a) := by
  unfold vlen
  simp only [Vec3.sub_x, Vec3.sub_y, Vec3.sub_z]
  rw [show (a.x - b.x) ^ 2 + (a.y - b.y) ^ 2 + (a.z - b.z) ^ 2
      = (b.x - a.x) ^ 2 + (b.y - a.y) ^ 2 + (b.z - a.z) ^ 2 by ring]

theorem abs_x_le_vlen (v : Vec3 ℝ) : |v.x| ≤ vlen v := by
  rw [← Real.sqrt_sq_eq_abs]
  apply Real.sqrt_le_sqrt
  nlinarith [sq_nonneg v.y, sq_nonneg v.z]

theorem vdot_scale_left {α : Type} [LinearOrderedField α] (c : α)
    (v w : Vec3 α) : vdot (Vec3.scale c v) w = c * vdot v w := by
  unfold vdot Vec3.scale
  ring

theorem vdot_self_eq (v : Vec3 ℝ) : vdot v v = vlen v ^ 2 := by
  unfold vdot vlen
  rw [Real.sq_sqrt (by positivity)]
  ring

theorem vdot_normalize_self (w : Vec3 ℝ) (h : w ≠ (⟨0, 0, 0⟩ : Vec3 ℝ)) :
    vdot (vnormalize w) w = vlen w := by
  have hl : vlen w ≠ 0 := fun h0 => h ((vlen_eq_zero_iff w).mp h0)
  rw [vnormalize, if_neg hl, vdot_scale_left, vdot_self_eq, sq]
  field_simp

/-- Helper: the per-particle update for a particle of a `forming` Being that
already sits at its formed target: the attraction term vanishes (distance
`0 ≤ 0.1`), so the new position is the old one plus the damped
velocity-plus-turbulence, plus the oscillation bob — independent of
`deltaTime`. -/
theorem updateParticleR_at_target (time dt : ℝ) (c : BeingCtx) (p : PState)
    (hs : c.state = BState.forming) (hp : p.targetPosition = p.pos) :
    (updateParticleR time c p dt).pos =
        p.pos + Vec3.scale (95/100) (p.vel + turbulenceVec time p.particleIndex) +
          (⟨0, Real.sin (p.oscillationPhase + 16/1000) * (5/100), 0⟩ : Vec3 ℝ)
      ∧ (updateParticleR time c p dt).vel =
          containVelocity c.basePosition
            (p.pos + Vec3.scale (95/100) (p.vel + turbulenceVec time p.particleIndex) +
              (⟨0, Real.sin (p.oscillationPhase + 16/1000) * (5/100), 0⟩ : Vec3 ℝ))
            (Vec3.scale (95/100) (p.vel + turbulenceVec time p.particleIndex)) := by
  have htp : stateTargetPos c p = p.pos := by
    rw [stateTargetPos, hs, hp]
  have hzero : stateTargetPos c p - p.pos = (⟨0, 0, 0⟩ : Vec3 ℝ) := by
    rw [htp, vec_sub_self]
  have hiff : ¬ vlen (stateTargetPos c p - p.pos) > 1 / 10 := by
    rw [hzero, vlen_zero]
    norm_num
  constructor
  · simp only [updateParticleR, if_neg hiff]
  · simp only [updateParticleR, if_neg hiff]

/-- C6 counterexample: `update(0)` is *not* a no-op integration.  The body of
`updateParticle` never reads `deltaTime`: damping, turbulence and the
oscillation bob are applied per frame.  Concretely, for a `forming` Being
(clock `0`) whose particle sits at its formed target with velocity
`(1, 0, 0)`, a `dt = 0` frame still moves the particle:
`x` becomes `5 + 0.95 * (1 + sin 0 * 0.008) = 5.95 ≠ 5`. -/
theorem update_zero_dt_moves_particle :
    (updateParticleR 0 zeroDtCtx zeroDtParticle 0).pos.x ≠ zeroDtParticle.pos.x := by
  have h := (updateParticleR_at_target 0 0 zeroDtCtx zeroDtParticle rfl rfl).1
  have ht : (turbulenceVec 0 zeroDtParticle.particleIndex).x = 0 := by
    show Real.sin (0 * (24/10) + (zeroDtParticle.particleIndex : ℝ) * (1/10)) *
        (8/1000) = 0
    norm_num [zeroDtParticle]
  have hx : (updateParticleR 0 zeroDtCtx zeroDtParticle 0).pos.x
      = zeroDtParticle.pos.x +
        (95/100) * (zeroDtParticle.vel.x +
          (turbulenceVec 0 zeroDtParticle.particleIndex).x) := by
    rw [h]
    simp
  rw [hx, ht]
  norm_num [zeroDtParticle]

/-- C6 (amended): `update(dt)` with empty being/ambient collections is safe
and only advances the clock; `update(0)` advances the clock by `0` and, as
long as the `stateTimer` has not already passed the freshly sampled
threshold, leaves the state machine untouched (`stepBeingState` with
`dt = 0` is the identity).  The per-particle integration, however, is
frame-based, not time-scaled, so positions/velocities/opacities can still
change on a `dt = 0` frame (see the counterexample). -/
theorem update_zero_dt_amended (w w2 : WorldR) (dt : ℝ) (jit arand : ℕ → ℝ)
    (s : BState) (t0 r : ℝ)
    (hbe : w.beings = []) (ham : w.ambient = [])
    (ht : ¬ t0 > stateTimings s + r * 2) :
    updateWorld w dt jit arand = { w with time := w.time + dt }
      ∧ (updateWorld w2 0 jit arand).time = w2.time
      ∧ stepBeingState s t0 (0 : ℝ) r = (s, t0) := by
  refine ⟨?_, ?_, ?_⟩
  · obtain ⟨bs, am, tm, sc, ms⟩ := w
    simp only at hbe ham
    subst hbe
    subst ham
    simp [updateWorld]
  · simp [updateWorld]
  · have h2 : ¬ t0 + 0 > stateTimings s + r * 2 := by simpa using ht
    rw [stepBeingState, if_neg h2, add_zero]

/-- C6 witness. -/
theorem update_zero_dt_amended_witness :
    updateWorld emptyWorld 1 (fun _ => 0) (fun _ => 0) =
        { emptyWorld with time := emptyWorld.time + 1 }
      ∧ (updateWorld emptyWorld 0 (fun _ => 0) (fun _ => 0)).time = emptyWorld.time
      ∧ stepBeingState BState.forming (0 : ℝ) 0 0 = (BState.forming, 0) :=
  update_zero_dt_amended emptyWorld emptyWorld 1 (fun _ => 0) (fun _ => 0)
    BState.forming 0 0 rfl rfl (by norm_num [stateTimings])

/-- C7 counterexample: the distance to the anchor does *not* strictly
decrease on every update while beyond `maxRadius = 25`.  The containment
impulse only nudges the velocity (by `0.01`, after the position update), so
a particle at distance 30 that is still moving outward moves further out on
the next frame: its `x` goes from 30 to at least
`30 + 0.95 * (1 - 0.008) > 30.94`. -/
theorem containment_distance_can_increase :
    vdist farParticle.pos zeroDtCtx.basePosition > 25
      ∧ vdist (updateParticleR (16/1000) zeroDtCtx farParticle (16/1000)).pos
            zeroDtCtx.basePosition
          > vdist farParticle.pos zeroDtCtx.basePosition := by
  have hold : vdist farParticle.pos zeroDtCtx.basePosition = 30 := by
    show vlen (farParticle.pos - zeroDtCtx.basePosition) = 30
    have hsub : farParticle.pos - zeroDtCtx.basePosition = (⟨30, 0, 0⟩ : Vec3 ℝ) := by
      apply Vec3.ext_mk <;> simp [farParticle, zeroDtCtx]
    rw [hsub]
    show Real.sqrt ((30:ℝ)^2 + 0^2 + 0^2) = 30
    rw [show (30:ℝ)^2 + 0^2 + 0^2 = 30^2 by norm_num]
    exact Real.sqrt_sq (by norm_num)
  have h := (updateParticleR_at_target (16/1000) (16/1000) zeroDtCtx
    farParticle rfl rfl).1
  have hx : (updateParticleR (16/1000) zeroDtCtx farParticle (16/1000)).pos.x
      = 30 + (95/100) *
        (1 + (turbulenceVec (16/1000) farParticle.particleIndex).x) := by
    rw [h]
    simp [farParticle]
  have hsin : |(turbulenceVec (16/1000) farParticle.particleIndex).x| ≤ 8/1000 := by
    show |Real.sin ((16/1000 : ℝ) * (24/10) + (farParticle.particleIndex : ℝ) *
        (1/10)) * (8/1000)| ≤ 8/1000
    rw [abs_mul]
    have h1 := Real.sin_le_one ((16/1000 : ℝ) * (24/10) +
      (farParticle.particleIndex : ℝ) * (1/10))
    have h2 := Real.neg_one_le_sin ((16/1000 : ℝ) * (24/10) +
      (farParticle.particleIndex : ℝ) * (1/10))
    have h3 : |Real.sin ((16/1000 : ℝ) * (24/10) +
        (farParticle.particleIndex : ℝ) * (1/10))| ≤ 1 := abs_le.mpr ⟨h2, h1⟩
    rw [show |(8/1000 : ℝ)| = 8/1000 by norm_num]
    nlinarith [abs_nonneg (Real.sin ((16/1000 : ℝ) * (24/10) +
      (farParticle.particleIndex : ℝ) * (1/10)))]
  have hxge : 30 + (95/100) * (1 - 8/1000) ≤
      (updateParticleR (16/1000) zeroDtCtx farParticle (16/1000)).pos.x := by
    have hlow := (abs_le.mp hsin).1
    rw [hx]
    linarith
  constructor
  · rw [hold]
    norm_num
  · rw [hold]
    have hdz : vdist (updateParticleR (16/1000) zeroDtCtx farParticle
        (16/1000)).pos zeroDtCtx.basePosition
        = vlen (updateParticleR (16/1000) zeroDtCtx farParticle (16/1000)).pos := by
      show vlen ((updateParticleR (16/1000) zeroDtCtx farParticle
        (16/1000)).pos - zeroDtCtx.basePosition) = _
      rw [show zeroDtCtx.basePosition = (⟨0, 0, 0⟩ : Vec3 ℝ) from rfl, vec_sub_zero]
    rw [hdz]
    calc (30 : ℝ) < 30 + (95/100) * (1 - 8/1000) := by norm_num
    _ ≤ (updateParticleR (16/1000) zeroDtCtx farParticle (16/1000)).pos.x := hxge
    _ ≤ |(updateParticleR (16/1000) zeroDtCtx farParticle (16/1000)).pos.x| :=
        le_abs_self _
    _ ≤ vlen (updateParticleR (16/1000) zeroDtCtx farParticle (16/1000)).pos :=
        abs_x_le_vlen _

/-- C7 (amended): whenever a particle ends a frame beyond `maxRadius = 25`
from its anchor, the containment step adds to its velocity an impulse of
length exactly `0.01` whose direction strictly points toward the anchor
(positive dot product with `anchor - position`); this soft pull-back does
not guarantee a per-frame decrease of the distance itself. -/
theorem containment_impulse_amended (basePos pos vel : Vec3 ℝ)
    (h : vdist pos basePos > 25) :
    vlen (containVelocity basePos pos vel - vel) = 1/100
      ∧ 0 < vdot (containVelocity basePos pos vel - vel) (basePos - pos) := by
  have h0 : (0 : ℝ) < vlen (pos - basePos) := by
    have h25 : (0 : ℝ) < vdist pos basePos := lt_trans (by norm_num) h
    exact h25
  have hw : basePos - pos ≠ (⟨0, 0, 0⟩ : Vec3 ℝ) := by
    intro h1
    have h2 : vlen (basePos - pos) = 0 := by
      rw [h1]
      exact vlen_zero
    rw [vlen_sub_comm] at h2
    linarith
  have hdelta : containVelocity basePos pos vel - vel
      = Vec3.scale (1/100) (vnormalize (basePos - pos)) := by
    rw [containVelocity, if_pos h, vec_add_sub_cancel]
  constructor
  · rw [hdelta, vlen_scale, vlen_normalize _ hw]
    norm_num
  · rw [hdelta, vdot_scale_left, vdot_normalize_self _ hw]
    have hpos : 0 < vlen (basePos - pos) := vlen_pos_of_ne _ hw
    positivity

/-- C7 witness. -/
theorem containment_impulse_amended_witness :
    vlen (containVelocity (⟨0, 0, 0⟩ : Vec3 ℝ) ⟨30, 0, 0⟩ ⟨0, 0, 0⟩ -
        (⟨0, 0, 0⟩ : Vec3 ℝ)) = 1/100
      ∧ 0 < vdot (containVelocity (⟨0, 0, 0⟩ : Vec3 ℝ) ⟨30, 0, 0⟩ ⟨0, 0, 0⟩ -
        (⟨0, 0, 0⟩ : Vec3 ℝ)) ((⟨0, 0, 0⟩ : Vec3 ℝ) - ⟨30, 0, 0⟩) := by
  apply containment_impulse_amended
  show vlen ((⟨30, 0, 0⟩ : Vec3 ℝ) - ⟨0, 0, 0⟩) > 25
  rw [vec_sub_zero]
  show Real.sqrt ((30:ℝ)^2 + 0^2 + 0^2) > 25
  rw [show (30:ℝ)^2 + 0^2 + 0^2 = 30^2 by norm_num]
  rw [Real.sqrt_sq (by norm_num : (0:ℝ) ≤ 30)]
  norm_num

/-- C8 counterexample: the influence test and the force target are two
*different* points.  For `applyMouseInfluence(1, 0, 1)` the force pushes
toward `(2, 0, 0)` but the radius test measures the distance to
`(20, 5, 0)`.  The particle at `(2, 1, 0)` is at distance 1 from the force
point — well inside the influence radius 10 — yet it is left completely
unchanged, because its distance to the tested point is `sqrt 340 > 10`;
the force the claim mandates for it is `(0, -0.01, 0) ≠ 0`. -/
theorem external_force_radius_mismatch :
    vdist mouseFarParticle.pos ⟨1 * 2, 0 * 2, 0⟩ < 10
      ∧ applyMouseParticle 1 0 1 mouseFarParticle = mouseFarParticle
      ∧ Vec3.scale (1/100 * 1)
          (vnormalize ((⟨1 * 2, 0 * 2, 0⟩ : Vec3 ℝ) - mouseFarParticle.pos)) ≠
        (⟨0, 0, 0⟩ : Vec3 ℝ) := by
  have hsub : mouseFarParticle.pos - (⟨1 * 2, 0 * 2, 0⟩ : Vec3 ℝ)
      = (⟨0, 1, 0⟩ : Vec3 ℝ) := by
    apply Vec3.ext_mk <;> norm_num [mouseFarParticle]
  have hsub2 : (⟨1 * 2, 0 * 2, 0⟩ : Vec3 ℝ) - mouseFarParticle.pos
      = (⟨0, -1, 0⟩ : Vec3 ℝ) := by
    apply Vec3.ext_mk <;> norm_num [mouseFarParticle]
  refine ⟨?_, ?_, ?_⟩
  · show vlen (mouseFarParticle.pos - (⟨1 * 2, 0 * 2, 0⟩ : Vec3 ℝ)) < 10
    rw [hsub]
    show Real.sqrt ((0:ℝ)^2 + 1^2 + 0^2) < 10
    rw [show (0:ℝ)^2 + 1^2 + 0^2 = 1^2 by norm_num]
    rw [Real.sqrt_sq (by norm_num : (0:ℝ) ≤ 1)]
    norm_num
  · have hfar : ¬ vdist mouseFarParticle.pos
        (⟨1 * 2 * 10, 0 * 2 * 10 + 5, 0⟩ : Vec3 ℝ) < 10 := by
      show ¬ vlen (mouseFarParticle.pos -
        (⟨1 * 2 * 10, 0 * 2 * 10 + 5, 0⟩ : Vec3 ℝ)) < 10
      have hsub3 : mouseFarParticle.pos -
          (⟨1 * 2 * 10, 0 * 2 * 10 + 5, 0⟩ : Vec3 ℝ) = (⟨-18, -4, 0⟩ : Vec3 ℝ) := by
        apply Vec3.ext_mk <;> norm_num [mouseFarParticle]
      rw [hsub3]
      show ¬ Real.sqrt ((-18:ℝ)^2 + (-4)^2 + 0^2) < 10
      rw [show ((-18:ℝ))^2 + (-4)^2 + 0^2 = 340 by norm_num]
      push_neg
      rw [show (10:ℝ) = Real.sqrt 100 by
        rw [show (100:ℝ) = 10^2 by norm_num, Real.sqrt_sq (by norm_num : (0:ℝ) ≤ 10)]]
      exact Real.sqrt_le_sqrt (by norm_num)
    rw [applyMouseParticle]
    simp only [if_neg hfar]
  · have hne : (⟨0, -1, 0⟩ : Vec3 ℝ) ≠ (⟨0, 0, 0⟩ : Vec3 ℝ) := by
      intro hcon
      have := congrArg Vec3.y hcon
      norm_num at this
    rw [hsub2]
    have hlen : vlen (⟨0, -1, 0⟩ : Vec3 ℝ) = 1 := by
      show Real.sqrt ((0:ℝ)^2 + (-1)^2 + 0^2) = 1
      rw [show (0:ℝ)^2 + (-1)^2 + 0^2 = 1^2 by norm_num]
      exact Real.sqrt_sq (by norm_num)
    have hnl : vlen (⟨0, -1, 0⟩ : Vec3 ℝ) ≠ 0 := by
      rw [hlen]
      norm_num
    rw [vnormalize, if_neg hnl, hlen]
    intro hcon
    have := congrArg Vec3.y hcon
    simp at this

/-- C8 (amended): `applyMouseInfluence(mouseX, mouseY, strength)` tests each
particle's distance against the point `(20·mouseX, 20·mouseY + 5, 0)` —
*not* against the point the force is aimed at — with influence radius 10;
inside the radius it adds
`normalize((2·mouseX, 2·mouseY, 0) - position) * (0.01 * strength)` to the
velocity (an impulse of magnitude `|strength| / 100` whenever the direction
is nondegenerate), and outside the radius the particle is left completely
unchanged. -/
theorem external_force_amended (mx my str : ℝ) (p : PState) :
    (vdist p.pos ⟨mx * 2 * 10, my * 2 * 10 + 5, 0⟩ < 10 →
        applyMouseParticle mx my str p =
          { p with vel := p.vel + Vec3.scale (1/100 * str) (vnormalize ((⟨mx * 2, my * 2, 0⟩ : Vec3 ℝ) - p.pos)) }
          ∧ ((⟨mx * 2, my * 2, 0⟩ : Vec3 ℝ) - p.pos ≠ (⟨0, 0, 0⟩ : Vec3 ℝ) →
            vlen ((applyMouseParticle mx my str p).vel - p.vel) = |str| / 100))
      ∧ (¬ vdist p.pos ⟨mx * 2 * 10, my * 2 * 10 + 5, 0⟩ < 10 →
          applyMouseParticle mx my str p = p) := by
  constructor
  · intro h
    have happ : applyMouseParticle mx my str p =
        { p with vel := p.vel + Vec3.scale (1/100 * str) (vnormalize ((⟨mx * 2, my * 2, 0⟩ : Vec3 ℝ) - p.pos)) } := by
      rw [applyMouseParticle]
      simp only [if_pos h]
    refine ⟨happ, ?_⟩
    intro hw
    rw [happ]
    simp only
    rw [vec_add_sub_cancel, vlen_scale, vlen_normalize _ hw, mul_one, abs_mul]
    rw [show |(1/100 : ℝ)| = 1/100 by norm_num]
    ring
  · intro h
    rw [applyMouseParticle]
    simp only [if_neg h]

/-- C8 witness. -/
theorem external_force_amended_witness :
    applyMouseParticle 0 0 1 mouseNearParticle =
        { mouseNearParticle with vel := mouseNearParticle.vel + Vec3.scale (1/100 * 1) (vnormalize ((⟨0 * 2, 0 * 2, 0⟩ : Vec3 ℝ) - mouseNearParticle.pos)) }
      ∧ vlen ((applyMouseParticle 0 0 1 mouseNearParticle).vel -
            mouseNearParticle.vel) = |(1 : ℝ)| / 100 := by
  have hin : vdist mouseNearParticle.pos
      (⟨0 * 2 * 10, 0 * 2 * 10 + 5, 0⟩ : Vec3 ℝ) < 10 := by
    show vlen (mouseNearParticle.pos -
      (⟨0 * 2 * 10, 0 * 2 * 10 + 5, 0⟩ : Vec3 ℝ)) < 10
    have hsub : mouseNearParticle.pos -
        (⟨0 * 2 * 10, 0 * 2 * 10 + 5, 0⟩ : Vec3 ℝ) = (⟨0, -4, 0⟩ : Vec3 ℝ) := by
      apply Vec3.ext_mk <;> norm_num [mouseNearParticle]
    rw [hsub]
    show Real.sqrt ((0:ℝ)^2 + (-4)^2 + 0^2) < 10
    rw [show (0:ℝ)^2 + (-4)^2 + 0^2 = 4^2 by norm_num]
    rw [Real.sqrt_sq (by norm_num : (0:ℝ) ≤ 4)]
    norm_num
  have hvec : (⟨0 * 2, 0 * 2, 0⟩ : Vec3 ℝ) - mouseNearParticle.pos ≠
      (⟨0, 0, 0⟩ : Vec3 ℝ) := by
    intro hcon
    have h2 := congrArg Vec3.y hcon
    norm_num [mouseNearParticle] at h2
  have h := (external_force_amended 0 0 1 mouseNearParticle).1 hin
  exact ⟨h.1, h.2 hvec⟩

/-- C9: disposal is idempotent and post-disposal calls are harmless:
`dispose()` of a disposed engine changes nothing (there is nothing left to
remove, no mesh left to re-show, and the scene is filtered by an empty id
set); `applyMouseInfluence` after `dispose()` is the identity; `update(dt)`
after `dispose()` only advances the clock, keeping both collections empty;
and `dispose()` itself never touches the clock. -/
theorem dispose_idempotent_and_post_dispose_safe (w : WorldR) (dt mx my str : ℝ)
    (jit arand : ℕ → ℝ) :
    disposeW (disposeW w) = disposeW w
      ∧ applyMouseInfluenceR mx my str (disposeW w) = disposeW w
      ∧ updateWorld (disposeW w) dt jit arand =
          { disposeW w with time := w.time + dt }
      ∧ (updateWorld (disposeW w) dt jit arand).beings = []
      ∧ (updateWorld (disposeW w) dt jit arand).ambient = []
      ∧ (disposeW w).time = w.time := by
  refine ⟨?_, ?_, ?_, ?_, ?_, rfl⟩
  · simp [disposeW]
  · simp [applyMouseInfluenceR, disposeW]
  · simp [updateWorld, disposeW]
  · simp [updateWorld, disposeW]
  · simp [updateWorld, disposeW]

end ParticleBeing
